import Mathlib

/-!
A shallow embedding of the `tls-sweep` Go program (`main.go`) and proofs of
its specified properties.

The embedding models:
- the Go standard-library string operations used by the program
  (`strings.ToLower`, `strings.TrimSpace`, `strings.Split`,
  `strings.HasPrefix`), restricted to the ASCII behaviour the program
  relies on;
- the data model (`ScanResult`, certificates, TLS dial parameters);
- the probe `scanDomain` and `certSubject`, parametrised by a `Network`
  record that stands for the DNS resolver and the TLS dialer;
- the candidate enumeration loop of `main`, the TLD fetching/caching
  (`fetchTLDs`, `loadTLDs`) with HTTP and the filesystem modelled as
  explicit inputs, and the CSV export (`exportToCsv`) with file creation
  modelled as an explicit `Except` input and log output as a list of
  `LogEvent`s;
- the worker pool of `main` as a small-step transition relation
  (`PoolStep`) over a state holding the pending task queue, the domains
  currently held by workers, and the emitted results.
-/

namespace TlsSweep

/-! ## Models of the Go standard-library string operations -/

/-- Go `unicode.IsSpace`, restricted to the ASCII whitespace characters. -/
def goIsSpace (c : Char) : Bool :=
  c = ' ' || c = '\t' || c = '\n' || c = '\x0b' || c = '\x0c' || c = '\r'

/-- Go `unicode.ToLower` on one character, restricted to ASCII. -/
def goToLowerChar (c : Char) : Char :=
  if 'A' ≤ c ∧ c ≤ 'Z' then Char.ofNat (c.toNat + 32) else c

/-- Go `strings.ToLower`, restricted to ASCII input. -/
def goToLower (s : String) : String :=
  ⟨s.data.map goToLowerChar⟩

/-- Go `strings.TrimSpace`: drop whitespace from both ends. -/
def goTrimSpace (s : String) : String :=
  ⟨((s.data.dropWhile goIsSpace).reverse.dropWhile goIsSpace).reverse⟩

/-- Split a character list at every occurrence of `sep`
(Go `strings.Split` with a one-character separator). -/
def splitOnChar (sep : Char) : List Char → List (List Char)
  | [] => [[]]
  | c :: cs =>
    if c = sep then [] :: splitOnChar sep cs
    else
      match splitOnChar sep cs with
      | [] => [[c]]
      | g :: gs => (c :: g) :: gs

/-- Go `strings.Split(s, "\n")`. -/
def goSplitLines (s : String) : List String :=
  (splitOnChar '\n' s.data).map fun cs => ⟨cs⟩

/-- Go `strings.Split(s, "\t")` (used for the TLD cache blob). -/
def goSplitTab (s : String) : List String :=
  (splitOnChar '\t' s.data).map fun cs => ⟨cs⟩

/-- Go `strings.HasPrefix`. -/
def goHasPrefixStr (s pre : String) : Bool :=
  pre.data.isPrefixOf s.data

/-! ## Data model -/

/-- The `ScanResult` struct of `main.go` (fields in source order;
a field omitted from a Go composite literal is its zero value `""`). -/
structure ScanResult where
  domain : String
  ip : String
  status : String
  subject : String
  issuer : String
  validTo : String
deriving Repr, DecidableEq

/-- A calendar date, standing for Go `time.Time` at day precision. -/
structure Date where
  year : Nat
  month : Nat
  day : Nat
deriving Repr, DecidableEq

/-- Zero-pad a number to two digits, as Go `Format("01")`/`Format("02")`. -/
def pad2 (n : Nat) : String :=
  if n < 10 then "0" ++ toString n else toString n

/-- Zero-pad a year to four digits, as Go `Format("2006")`. -/
def pad4 (n : Nat) : String :=
  if n < 10 then "000" ++ toString n
  else if n < 100 then "00" ++ toString n
  else if n < 1000 then "0" ++ toString n
  else toString n

/-- Go `t.Format("2006-01-02")`: the date as `YYYY-MM-DD`. -/
def formatDate (d : Date) : String :=
  pad4 d.year ++ "-" ++ pad2 d.month ++ "-" ++ pad2 d.day

/-- The fields of an `x509.Certificate` that `main.go` reads. -/
structure Certificate where
  subjectCommonName : String
  dnsNames : List String
  issuerCommonName : String
  notAfter : Date
deriving Repr, DecidableEq

/-- The field of `tls.ConnectionState` that `main.go` reads. -/
structure ConnState where
  peerCertificates : List Certificate
deriving Repr, DecidableEq

/-- The `net.Dialer` 5-second timeout set in `scanDomain`. -/
structure Dialer where
  timeoutSeconds : Nat
deriving Repr, DecidableEq

/-- The fields of `tls.Config` that `scanDomain` sets. -/
structure TLSConfig where
  insecureSkipVerify : Bool
  serverName : String
deriving Repr, DecidableEq

/-- All arguments of the `tls.DialWithDialer` call in `scanDomain`. -/
structure DialRequest where
  dialer : Dialer
  network : String
  addr : String
  config : TLSConfig
deriving Repr, DecidableEq

/-- The network environment a probe runs against: the DNS resolver
(`net.LookupHost`) and the TLS dialer (`tls.DialWithDialer`).
A successful dial is summarised by the connection state `scanDomain`
reads; closing the connection has no observable effect in the model. -/
structure Network where
  lookupHost : String → Except String (List String)
  dialTLS : DialRequest → Except String ConnState

/-! ## The probe (`scanDomain`, `certSubject`, lines 176-216) -/

/-- `certSubject` (lines 208-216). -/
def certSubject (cert : Certificate) : String :=
  if cert.subjectCommonName ≠ "" then cert.subjectCommonName
  else
    match cert.dnsNames with
    | d :: _ => d
    | [] => "(no subject)"

/-- The `DialRequest` that `scanDomain` builds (lines 183-186):
TCP to `domain:443`, 5-second dial timeout, certificate verification
disabled, SNI set to the domain. -/
def scanDialRequest (domain : String) : DialRequest :=
  { dialer := { timeoutSeconds := 5 }
    network := "tcp"
    addr := domain ++ ":443"
    config := { insecureSkipVerify := true, serverName := domain } }

/-- `scanDomain` (lines 176-206). -/
def scanDomain (net : Network) (domain : String) : ScanResult :=
  match net.lookupHost domain with
  | .error _ =>
    { domain := domain, ip := "-", status := "NXDOMAIN"
      subject := "", issuer := "", validTo := "" }
  | .ok [] =>
    { domain := domain, ip := "-", status := "NXDOMAIN"
      subject := "", issuer := "", validTo := "" }
  | .ok (ip :: _) =>
    match net.dialTLS (scanDialRequest domain) with
    | .error _ =>
      { domain := domain, ip := ip, status := "TLS ERROR"
        subject := "", issuer := "", validTo := "" }
    | .ok state =>
      match state.peerCertificates with
      | [] =>
        { domain := domain, ip := ip, status := "NO CERT"
          subject := "", issuer := "", validTo := "" }
      | cert :: _ =>
        { domain := domain, ip := ip, status := "OK"
          subject := certSubject cert
          issuer := cert.issuerCommonName
          validTo := formatDate cert.notAfter }

/-! ## The candidate enumeration loop of `main` (lines 62-68) -/

/-- The loop of `main` that turns the TLD list into candidate domains:
skip every TLD with prefix `xn--`, emit `base + "." + tld` in order. -/
def enumerate (baseDomain : String) (tlds : List String) : List String :=
  tlds.filterMap fun tld =>
    if goHasPrefixStr tld "xn--" then none
    else some (baseDomain ++ "." ++ tld)

/-! ## TLD fetching and loading (`fetchTLDs`, `loadTLDs`, lines 108-166) -/

/-- The body of the loop of `fetchTLDs` over the response lines
(lines 159-164): skip the first line, lower-case and trim each
remaining line, keep the non-empty results in order. -/
def parseTLDLines (lines : List String) : List String :=
  (lines.drop 1).filterMap fun line =>
    let tld := goToLower (goTrimSpace line)
    if tld.length > 0 then some tld else none

/-- `fetchTLDs` (lines 148-166). The HTTP request is modelled as an
explicit input: either a transport error or the response body. -/
def fetchTLDs (httpResult : Except String String) : Except String (List String) :=
  match httpResult with
  | .error e => .error ("failed to fetch TLDs: " ++ e)
  | .ok body => .ok (parseTLDLines (goSplitLines body))

/-- `loadTLDs` (lines 108-146). The filesystem is modelled by
`cacheContent` (`some c` when the cache file exists and opens with
contents `c`, `none` otherwise); writing the refreshed cache has no
observable effect on the returned value. -/
def loadTLDs (useCache : Bool) (cacheContent : Option String)
    (httpResult : Except String String) : Except String (List String) :=
  let tlds : List String :=
    if useCache then
      match cacheContent with
      | some content => goSplitTab content
      | none => []
    else []
  if tlds.length = 0 then fetchTLDs httpResult
  else .ok tlds

/-! ## Aggregation and CSV export (`exportToCsv`, lines 77-106) -/

/-- The CSV row written for one reportable result (line 99). -/
def csvRow (res : ScanResult) : List String :=
  [res.domain, res.ip, res.status, res.subject, res.issuer, res.validTo]

/-- The header row (line 89). -/
def csvHeader : List String :=
  ["Domain", "IP", "Status", "Subject", "Issuer", "ValidTo"]

/-- The consumption loop of `exportToCsv` (lines 91-100): partition the
results, in consumption order, into written CSV rows (status other than
`NXDOMAIN`) and the `DomainsNotFound` list (status `NXDOMAIN`). -/
def aggregateResults : List ScanResult → List (List String) × List String
  | [] => ([], [])
  | res :: rest =>
    let (rows, notFound) := aggregateResults rest
    if res.status = "NXDOMAIN" then (rows, res.domain :: notFound)
    else (csvRow res :: rows, notFound)

/-- The CSV file produced by a run, header row included. -/
structure CsvFile where
  rows : List (List String)
deriving Repr, DecidableEq

/-- The log lines `exportToCsv` emits, as structured events:
the file-creation failure report (line 81), the not-found count
(line 102), the not-found list (line 103), and the final success
message (line 105). -/
inductive LogEvent where
  | createFailed (err : String)
  | notFoundCount (n : Nat)
  | notFoundList (domains : List String)
  | exported (fileName : String)
deriving Repr, DecidableEq

/-- `exportToCsv` (lines 77-106). `os.Create` is modelled by the
explicit `createResult` input; the output is the CSV file written
(`none` when creation failed) and the emitted log events, in order.
On creation failure the function returns at line 82: no file, no
success message, only the failure report. -/
def exportToCsv (createResult : Except String Unit) (baseDomain : String)
    (results : List ScanResult) : Option CsvFile × List LogEvent :=
  let fileName := baseDomain ++ ".csv"
  match createResult with
  | .error e => (none, [LogEvent.createFailed e])
  | .ok _ =>
    let (rows, notFound) := aggregateResults results
    (some ⟨csvHeader :: rows⟩,
     [LogEvent.notFoundCount notFound.length,
      LogEvent.notFoundList notFound,
      LogEvent.exported fileName])

/-! ## The worker pool (`worker` and the channels of `main`, lines 53-73)

The pool is modelled as a small-step transition system. A state holds
the tasks still in the `tasks` channel, the domains currently held by
workers, and the results emitted so far (the channels are buffered with
capacity `len(tlds)`, so no send ever blocks and every emitted result is
retained). A step either lets a worker take the next task from the queue
or lets a worker holding a domain emit `probe domain` (the body of
`worker`, lines 170-173). Any number of workers and any interleaving is
covered. -/

structure PoolState where
  pending : List String
  inFlight : List String
  results : List ScanResult
deriving Repr, DecidableEq

/-- One scheduler step of the worker pool, for probe function `probe`. -/
inductive PoolStep (probe : String → ScanResult) : PoolState → PoolState → Prop
  | take (d : String) (rest inflight : List String) (res : List ScanResult) :
      PoolStep probe ⟨d :: rest, inflight, res⟩ ⟨rest, d :: inflight, res⟩
  | finish (pending : List String) (l₁ : List String) (d : String)
      (l₂ : List String) (res : List ScanResult) :
      PoolStep probe ⟨pending, l₁ ++ d :: l₂, res⟩
        ⟨pending, l₁ ++ l₂, res ++ [probe d]⟩

/-- The multiset of results the pool still owes plus those delivered:
conserved by every step. -/
def poolMeasure (probe : String → ScanResult) (s : PoolState) : Multiset ScanResult :=
  (↑(s.pending.map probe) : Multiset ScanResult)
    + (↑(s.inFlight.map probe) : Multiset ScanResult)
    + (↑s.results : Multiset ScanResult)

/-! ## `main` (lines 36-75) -/

/-- How a run of `main` ends: the usage message and `os.Exit(1)`
(lines 37-40), `logger.Fatalf` after a TLD-loading error (line 50,
`Fatalf` exits with status 1), or a completed run with the enumerated
candidates and the outcome of `exportToCsv`. -/
inductive MainOutcome where
  | usageExit
  | loadFailure (err : String)
  | ran (candidates : List String) (csv : Option CsvFile) (logs : List LogEvent)
deriving Repr, DecidableEq

/-- The process exit status of each outcome. -/
def exitCode : MainOutcome → Nat
  | .usageExit => 1
  | .loadFailure _ => 1
  | .ran _ _ _ => 0

/-- Whether the run reached the scanning pipeline (channels, workers,
export) rather than stopping at argument or TLD-loading checks. -/
def proceedsToScan : MainOutcome → Bool
  | .ran _ _ _ => true
  | _ => false

/-- `main` (lines 36-75), with the worker pool summarised by its
conserved outcome (one probe result per candidate; theorem
`c1_pool_delivers_one_result_per_candidate` justifies the summary for
every interleaving): `args` is `os.Args`, `loadResult` the value
returned by `loadTLDs`, `createResult` the `os.Create` outcome inside
`exportToCsv`. -/
def runMain (args : List String) (loadResult : Except String (List String))
    (probe : String → ScanResult) (createResult : Except String Unit) : MainOutcome :=
  match args with
  | _prog :: baseDomain :: _rest =>
    match loadResult with
    | .error e => .loadFailure e
    | .ok tlds =>
      let candidates := enumerate baseDomain tlds
      let results := candidates.map probe
      let out := exportToCsv createResult baseDomain results
      .ran candidates out.1 out.2
  | _ => .usageExit


/-! ## Concrete fixtures used by the witnesses -/

/-- A probe returning an `NXDOMAIN` result for every domain
(shaped like line 179 of `scanDomain`). -/
def probeNx : String → ScanResult := fun d =>
  { domain := d, ip := "-", status := "NXDOMAIN"
    subject := "", issuer := "", validTo := "" }

/-- A concrete certificate. -/
def certA : Certificate :=
  { subjectCommonName := "example.com", dnsNames := ["www.example.com"]
    issuerCommonName := "Example CA", notAfter := ⟨2026, 3, 7⟩ }

/-- A network on which every DNS lookup fails. -/
def netNx : Network :=
  { lookupHost := fun _ => .error "no such host", dialTLS := fun _ => .error "unused" }

/-- A network that resolves every domain but fails every handshake. -/
def netTlsErr : Network :=
  { lookupHost := fun _ => .ok ["10.0.0.1"], dialTLS := fun _ => .error "handshake failure" }

/-- A network whose handshakes succeed with an empty certificate chain. -/
def netNoCert : Network :=
  { lookupHost := fun _ => .ok ["10.0.0.2"], dialTLS := fun _ => .ok ⟨[]⟩ }

/-- A network whose handshakes succeed and present `certA`. -/
def netOk : Network :=
  { lookupHost := fun _ => .ok ["93.184.216.34"], dialTLS := fun _ => .ok ⟨[certA]⟩ }

/-! ## Helper lemmas -/

theorem poolStep_measure_eq {probe : String → ScanResult} {s t : PoolState}
    (h : PoolStep probe s t) : poolMeasure probe t = poolMeasure probe s := by
  cases h with
  | take d rest inflight res =>
    simp only [poolMeasure, List.map_cons, ← Multiset.cons_coe,
      ← Multiset.singleton_add]
    abel
  | finish pending l₁ d l₂ res =>
    simp only [poolMeasure, List.map_append, List.map_cons, ← Multiset.coe_add,
      ← Multiset.cons_coe, ← Multiset.singleton_add]
    abel

theorem poolReach_measure_eq {probe : String → ScanResult} {s t : PoolState}
    (h : Relation.ReflTransGen (PoolStep probe) s t) :
    poolMeasure probe t = poolMeasure probe s := by
  induction h with
  | refl => rfl
  | tail _step hstep ih => rw [poolStep_measure_eq hstep, ih]

theorem aggregateResults_length (results : List ScanResult) :
    (aggregateResults results).1.length + (aggregateResults results).2.length
      = results.length := by
  induction results with
  | nil => rfl
  | cons res rest ih =>
    simp only [aggregateResults]
    split <;> simp [← ih] <;> omega


/-! ## Claim theorems -/

/-- C1: for every list of candidate domains dispatched to the worker
pool and every interleaving of worker steps that drains the task queue
and finishes all in-flight work, the delivered results are exactly one
probe result per candidate (a permutation of `tasks.map probe`: no
duplicates, no drops), and the aggregator's partition counts — CSV rows
written (status other than `NXDOMAIN`) plus not-found domains (status
`NXDOMAIN`) — sum to the number of candidates dispatched. -/
theorem c1_pool_delivers_one_result_per_candidate
    (probe : String → ScanResult) (tasks : List String) (final : PoolState)
    (hreach : Relation.ReflTransGen (PoolStep probe) ⟨tasks, [], []⟩ final)
    (hpending : final.pending = []) (hinflight : final.inFlight = []) :
    final.results.Perm (tasks.map probe) ∧
    (aggregateResults final.results).1.length
      + (aggregateResults final.results).2.length = tasks.length := by
  have hm := poolReach_measure_eq hreach
  simp only [poolMeasure, hpending, hinflight, List.map_nil, Multiset.coe_nil,
    zero_add, add_zero] at hm
  have hperm : final.results.Perm (tasks.map probe) := by
    rwa [Multiset.coe_eq_coe] at hm
  refine ⟨hperm, ?_⟩
  rw [aggregateResults_length, hperm.length_eq, List.length_map]

/-- C1 witness: a complete two-step run (take, then finish) on the
single candidate `example.com`. -/
theorem c1_witness :
    (PoolState.mk [] [] [probeNx "example.com"]).results.Perm
        (["example.com"].map probeNx) ∧
    (aggregateResults (PoolState.mk [] [] [probeNx "example.com"]).results).1.length
      + (aggregateResults (PoolState.mk [] [] [probeNx "example.com"]).results).2.length
      = (["example.com"] : List String).length :=
  c1_pool_delivers_one_result_per_candidate probeNx ["example.com"]
    ⟨[], [], [probeNx "example.com"]⟩
    (Relation.ReflTransGen.tail
      (Relation.ReflTransGen.single (PoolStep.take "example.com" [] [] []))
      (PoolStep.finish [] [] "example.com" [] []))
    rfl rfl

/-- C2: for every network environment and every input domain,
`scanDomain` returns a well-formed `ScanResult` for that domain (it is a
total function of its inputs — the Go function has no error return and
every branch returns a result literal), and the `Status` field is one of
exactly `NXDOMAIN`, `TLS ERROR`, `NO CERT`, `OK`. -/
theorem c2_probe_total_closed_status (net : Network) (d : String) :
    (scanDomain net d).domain = d ∧
    ((scanDomain net d).status = "NXDOMAIN" ∨ (scanDomain net d).status = "TLS ERROR"
      ∨ (scanDomain net d).status = "NO CERT" ∨ (scanDomain net d).status = "OK") := by
  rcases h1 : net.lookupHost d with e | (_ | ⟨ip, rest⟩) <;>
    simp only [scanDomain, h1] <;> try simp
  rcases h2 : net.dialTLS (scanDialRequest d) with e | st <;> simp only [h2] <;> try simp
  rcases hc : st.peerCertificates with _ | ⟨c, cs⟩ <;> simp [hc]

/-- C3: `scanDomain` classifies outcomes as specified. A failed or empty
DNS resolution yields `NXDOMAIN` with the `-` sentinel IP and empty
certificate fields; a resolution followed by a failed handshake yields
`TLS ERROR` with the first resolved address; a successful handshake with
no peer certificates yields `NO CERT`; a successful handshake with at
least one certificate yields `OK` with subject, issuer and `valid_to`
taken from the leaf (first) certificate, `valid_to` as `YYYY-MM-DD`.
The final conjunct states that in the `NXDOMAIN` case no TLS connection
is attempted: the result is independent of the dial function. -/
theorem c3_probe_classification (net : Network) (d : String) :
    (∀ e, net.lookupHost d = .error e →
      scanDomain net d = ⟨d, "-", "NXDOMAIN", "", "", ""⟩) ∧
    (net.lookupHost d = .ok [] →
      scanDomain net d = ⟨d, "-", "NXDOMAIN", "", "", ""⟩) ∧
    (∀ ip rest e, net.lookupHost d = .ok (ip :: rest) →
      net.dialTLS (scanDialRequest d) = .error e →
      scanDomain net d = ⟨d, ip, "TLS ERROR", "", "", ""⟩) ∧
    (∀ ip rest, net.lookupHost d = .ok (ip :: rest) →
      net.dialTLS (scanDialRequest d) = .ok ⟨[]⟩ →
      scanDomain net d = ⟨d, ip, "NO CERT", "", "", ""⟩) ∧
    (∀ ip rest cert certs, net.lookupHost d = .ok (ip :: rest) →
      net.dialTLS (scanDialRequest d) = .ok ⟨cert :: certs⟩ →
      scanDomain net d = ⟨d, ip, "OK", certSubject cert, cert.issuerCommonName,
        formatDate cert.notAfter⟩) ∧
    ((net.lookupHost d = .ok [] ∨ ∃ e, net.lookupHost d = .error e) →
      ∀ g : DialRequest → Except String ConnState,
        scanDomain ⟨net.lookupHost, g⟩ d = scanDomain net d) := by
  refine ⟨?_, ?_, ?_, ?_, ?_, ?_⟩
  · intro e h; simp [scanDomain, h]
  · intro h; simp [scanDomain, h]
  · intro ip rest e h1 h2; simp [scanDomain, h1, h2]
  · intro ip rest h1 h2; simp [scanDomain, h1, h2]
  · intro ip rest cert certs h1 h2; simp [scanDomain, h1, h2]
  · rintro (h | ⟨e, h⟩) g <;> simp [scanDomain, h]

/-- C3 witness: each of the four classifications on a concrete network. -/
theorem c3_witness :
    scanDomain netNx "a.test" = ⟨"a.test", "-", "NXDOMAIN", "", "", ""⟩ ∧
    scanDomain netTlsErr "b.test" = ⟨"b.test", "10.0.0.1", "TLS ERROR", "", "", ""⟩ ∧
    scanDomain netNoCert "c.test" = ⟨"c.test", "10.0.0.2", "NO CERT", "", "", ""⟩ ∧
    scanDomain netOk "d.test" = ⟨"d.test", "93.184.216.34", "OK", certSubject certA,
      certA.issuerCommonName, formatDate certA.notAfter⟩ :=
  ⟨(c3_probe_classification netNx "a.test").1 "no such host" rfl,
   (c3_probe_classification netTlsErr "b.test").2.2.1 "10.0.0.1" [] "handshake failure" rfl rfl,
   (c3_probe_classification netNoCert "c.test").2.2.2.1 "10.0.0.2" [] rfl rfl,
   (c3_probe_classification netOk "d.test").2.2.2.2.1 "93.184.216.34" [] certA [] rfl rfl⟩

/-- C4: `certSubject` returns the certificate's common name when it is
non-empty; otherwise the first Subject-Alternative-Name DNS entry when
at least one exists; otherwise the literal `(no subject)`. -/
theorem c4_cert_subject_fallback (cert : Certificate) :
    (cert.subjectCommonName ≠ "" → certSubject cert = cert.subjectCommonName) ∧
    (∀ d rest, cert.subjectCommonName = "" → cert.dnsNames = d :: rest →
      certSubject cert = d) ∧
    (cert.subjectCommonName = "" → cert.dnsNames = [] →
      certSubject cert = "(no subject)") := by
  refine ⟨?_, ?_, ?_⟩ <;> intros <;> simp_all [certSubject]

/-- C4 witness: the three fallback cases on concrete certificates,
including the two examples of the specification. -/
theorem c4_witness :
    certSubject ⟨"cn.example", ["alt.example.com"], "", ⟨2026, 1, 1⟩⟩ = "cn.example" ∧
    certSubject ⟨"", ["alt.example.com"], "", ⟨2026, 1, 1⟩⟩ = "alt.example.com" ∧
    certSubject ⟨"", [], "", ⟨2026, 1, 1⟩⟩ = "(no subject)" :=
  ⟨(c4_cert_subject_fallback ⟨"cn.example", ["alt.example.com"], "", ⟨2026, 1, 1⟩⟩).1
      (by decide),
   (c4_cert_subject_fallback ⟨"", ["alt.example.com"], "", ⟨2026, 1, 1⟩⟩).2.1
      "alt.example.com" [] rfl rfl,
   (c4_cert_subject_fallback ⟨"", [], "", ⟨2026, 1, 1⟩⟩).2.2 rfl rfl⟩

/-- C5: the enumerator emits `base + "." + tld` for exactly the TLDs not
beginning with `xn--`, preserving input order (it equals the
filter-then-map of the input list), and on base `example` with TLDs
`com`, `xn--p1ai`, `net` it produces exactly `example.com`,
`example.net` in that order. -/
theorem c5_enumerate_filters_idn (base : String) (tlds : List String) :
    enumerate base tlds
      = (tlds.filter fun t => !(goHasPrefixStr t "xn--")).map
          (fun t => base ++ "." ++ t) ∧
    enumerate "example" ["com", "xn--p1ai", "net"] = ["example.com", "example.net"] := by
  constructor
  · induction tlds with
    | nil => rfl
    | cons t ts ih =>
      simp only [enumerate, List.filterMap_cons, List.filter_cons] at ih ⊢
      cases h : goHasPrefixStr t "xn--" <;> simp [h, ih]
  · decide

/-- C6 counterexample: the enumeration loop of `main` does not
lower-case or trim the TLD. On the whitespace-padded mixed-case TLD
`" CoM "` it emits `example. CoM `, which differs from the candidate
built from the normalized form `com`. -/
theorem c6_counterexample :
    enumerate "example" [" CoM "] = ["example. CoM "] ∧
    enumerate "example" [" CoM "] ≠ ["example." ++ goToLower (goTrimSpace " CoM ")] := by
  decide

/-- C6 amended: lower-casing and trimming happen in `fetchTLDs` (each
fetched entry is the lower-cased trim of a response line), not in the
enumeration loop, which concatenates each TLD verbatim and never fails
on any input string. -/
theorem c6_normalization_in_fetch (base tld : String) (lines : List String)
    (h : goHasPrefixStr tld "xn--" = false) :
    enumerate base [tld] = [base ++ "." ++ tld] ∧
    ∀ t ∈ parseTLDLines lines, ∃ line ∈ lines.drop 1,
      t = goToLower (goTrimSpace line) := by
  constructor
  · simp [enumerate, h]
  · intro t ht
    simp only [parseTLDLines, List.mem_filterMap] at ht
    obtain ⟨line, hline, heq⟩ := ht
    split at heq
    · exact ⟨line, hline, (Option.some.inj heq).symm⟩
    · exact absurd heq (by simp)

/-- C6 amended witness: the TLD `com` and a fetched body whose data line
is `" CoM "`. -/
theorem c6_witness :
    goHasPrefixStr "com" "xn--" = false ∧
    (enumerate "example" ["com"] = ["example" ++ "." ++ "com"] ∧
     ∀ t ∈ parseTLDLines ["VERSION LINE", " CoM "],
       ∃ line ∈ (["VERSION LINE", " CoM "] : List String).drop 1,
         t = goToLower (goTrimSpace line)) :=
  ⟨by decide,
   c6_normalization_in_fetch "example" "com" ["VERSION LINE", " CoM "] (by decide)⟩

/-- C7: the dial request `scanDomain` issues is a TCP connection to the
domain on port 443 with a 5-second dial timeout, certificate and
hostname verification disabled, and SNI set to the domain; and the probe
consults the dialer only at this request (two networks with the same
resolver that agree on this one request give identical probe results). -/
theorem c7_dial_parameters (d : String) (net net2 : Network)
    (hl : net2.lookupHost = net.lookupHost)
    (hd : net2.dialTLS (scanDialRequest d) = net.dialTLS (scanDialRequest d)) :
    (scanDialRequest d).network = "tcp" ∧
    (scanDialRequest d).addr = d ++ ":443" ∧
    (scanDialRequest d).dialer.timeoutSeconds = 5 ∧
    (scanDialRequest d).config.insecureSkipVerify = true ∧
    (scanDialRequest d).config.serverName = d ∧
    scanDomain net2 d = scanDomain net d := by
  refine ⟨rfl, rfl, rfl, rfl, rfl, ?_⟩
  simp only [scanDomain, hl, hd]

/-- C7 witness: the dial parameters for the concrete domain
`example.com`. -/
theorem c7_witness :
    (scanDialRequest "example.com").network = "tcp" ∧
    (scanDialRequest "example.com").addr = "example.com" ++ ":443" ∧
    (scanDialRequest "example.com").dialer.timeoutSeconds = 5 ∧
    (scanDialRequest "example.com").config.insecureSkipVerify = true ∧
    (scanDialRequest "example.com").config.serverName = "example.com" ∧
    scanDomain netOk "example.com" = scanDomain netOk "example.com" :=
  c7_dial_parameters "example.com" netOk netOk rfl rfl

/-- C8: when creation of the CSV output file fails, `exportToCsv` writes
no file at all (so no partial output can be presented as complete),
reports the failure, and emits no success message; it returns
immediately, ending the run (`exportToCsv` is the last statement of
`main`). -/
theorem c8_create_failure_stops_run (e base : String) (results : List ScanResult) :
    (exportToCsv (.error e) base results).1 = none ∧
    LogEvent.createFailed e ∈ (exportToCsv (.error e) base results).2 ∧
    ∀ f, LogEvent.exported f ∉ (exportToCsv (.error e) base results).2 := by
  refine ⟨rfl, ?_, ?_⟩ <;> simp [exportToCsv]

/-- C9 counterexample: the program checks only that `loadTLDs` returned
without error, not that the TLD sequence is non-empty. A fetched body
consisting of the header line alone loads as the empty TLD list, and the
run proceeds to scanning (producing an empty report) instead of
reporting a startup failure. -/
theorem c9_counterexample :
    loadTLDs true none (.ok "VERSION 2026101100\n") = .ok [] ∧
    proceedsToScan (runMain ["tls-sweep", "example"]
      (loadTLDs true none (.ok "VERSION 2026101100\n")) probeNx (.ok ())) = true :=
  ⟨rfl, rfl⟩

/-- C9 amended: the run exits with status 1 and the usage message when
no base-domain argument is supplied, exits with status 1 and an error
message when the TLD source cannot be obtained, and proceeds to scanning
whenever `loadTLDs` succeeds — even with an empty TLD sequence. -/
theorem c9_gating (args : List String) (load : Except String (List String))
    (probe : String → ScanResult) (create : Except String Unit) :
    (args.length < 2 → runMain args load probe create = .usageExit ∧
      exitCode (runMain args load probe create) = 1) ∧
    (∀ e, 2 ≤ args.length → load = .error e →
      runMain args load probe create = .loadFailure e ∧
      exitCode (runMain args load probe create) = 1) ∧
    (∀ tlds, 2 ≤ args.length → load = .ok tlds →
      proceedsToScan (runMain args load probe create) = true) := by
  rcases args with _ | ⟨a, _ | ⟨b, rest⟩⟩
  · exact ⟨fun _ => ⟨rfl, rfl⟩,
      fun e h => by simp at h,
      fun tlds h => by simp at h⟩
  · exact ⟨fun _ => ⟨rfl, rfl⟩,
      fun e h => by simp at h,
      fun tlds h => by simp at h⟩
  · refine ⟨fun h => by simp at h; omega, ?_, ?_⟩
    · intro e _ hl
      subst hl
      exact ⟨rfl, rfl⟩
    · intro tlds _ hl
      subst hl
      rfl

/-- C9 amended witness: a run with no base-domain argument, a run whose
TLD load fails, and a run whose TLD load succeeds. -/
theorem c9_witness :
    (runMain ["tls-sweep"] (.ok ["com"]) probeNx (.ok ()) = .usageExit ∧
     exitCode (runMain ["tls-sweep"] (.ok ["com"]) probeNx (.ok ())) = 1) ∧
    (runMain ["tls-sweep", "example"] (.error "fetch failed") probeNx (.ok ())
       = .loadFailure "fetch failed" ∧
     exitCode (runMain ["tls-sweep", "example"] (.error "fetch failed") probeNx (.ok ()))
       = 1) ∧
    proceedsToScan (runMain ["tls-sweep", "example"] (.ok ["com"]) probeNx (.ok ()))
      = true :=
  ⟨(c9_gating ["tls-sweep"] (.ok ["com"]) probeNx (.ok ())).1 (by decide),
   (c9_gating ["tls-sweep", "example"] (.error "fetch failed") probeNx (.ok ())).2.1
     "fetch failed" (by decide) rfl,
   (c9_gating ["tls-sweep", "example"] (.ok ["com"]) probeNx (.ok ())).2.2
     ["com"] (by decide) rfl⟩

/-- C10: `fetchTLDs` parsing ignores the first (header) line of the body
(the result does not depend on its contents), drops every line that is
empty after trimming, and every entry returned is non-empty and is the
lower-cased, whitespace-trimmed form of one of the remaining response
lines; on a response body `fetchTLDs` returns exactly this parse. -/
theorem c10_fetch_parsing (body l₀ l₁ blank : String) (ls ls₁ ls₂ : List String)
    (hblank : goTrimSpace blank = "") :
    parseTLDLines (l₀ :: ls) = parseTLDLines (l₁ :: ls) ∧
    parseTLDLines (l₀ :: (ls₁ ++ blank :: ls₂)) = parseTLDLines (l₀ :: (ls₁ ++ ls₂)) ∧
    (∀ t ∈ parseTLDLines (goSplitLines body), t ≠ "" ∧
      ∃ line ∈ (goSplitLines body).drop 1, t = goToLower (goTrimSpace line)) ∧
    fetchTLDs (.ok body) = .ok (parseTLDLines (goSplitLines body)) := by
  have h0 : goToLower (goTrimSpace blank) = "" := by rw [hblank]; rfl
  refine ⟨rfl, ?_, ?_, rfl⟩
  · simp [parseTLDLines, List.filterMap_append, List.filterMap_cons, h0]
  · intro t ht
    simp only [parseTLDLines, List.mem_filterMap] at ht
    obtain ⟨line, hline, heq⟩ := ht
    split at heq
    · rename_i hpos
      obtain rfl : goToLower (goTrimSpace line) = t := Option.some.inj heq
      refine ⟨?_, line, hline, rfl⟩
      intro hemp
      rw [hemp] at hpos
      simp at hpos
    · exact absurd heq (by simp)

/-- C10 witness: a whitespace-only blank line and the concrete body
`V\ncom\n`. -/
theorem c10_witness :
    goTrimSpace " " = "" ∧
    (parseTLDLines ["a"] = parseTLDLines ["b"] ∧
     parseTLDLines ("a" :: ([] ++ " " :: [])) = parseTLDLines ("a" :: ([] ++ [])) ∧
     (∀ t ∈ parseTLDLines (goSplitLines "V\ncom\n"), t ≠ "" ∧
       ∃ line ∈ (goSplitLines "V\ncom\n").drop 1, t = goToLower (goTrimSpace line)) ∧
     fetchTLDs (.ok "V\ncom\n") = .ok (parseTLDLines (goSplitLines "V\ncom\n"))) :=
  ⟨by decide, c10_fetch_parsing "V\ncom\n" "a" "b" " " [] [] [] (by decide)⟩

end TlsSweep
